import Mathlib

/-!
Shallow embedding of `src/Day1/duration_prediction/train.py`, a two-function
training script for a taxi trip-duration model:

* `read_dataframe` reads a parquet table, derives a `duration` column in
  fractional minutes, keeps rows with `1 ≤ duration ≤ 60`, and converts the
  two location-identifier columns to strings;
* `train` resolves two monthly source URLs from two dates, loads both tables,
  fits a DictVectorizer + LinearRegression pipeline on the training data,
  computes the validation RMSE, pickles the pipeline to `out_path`, and
  returns the RMSE.

Timestamps are modelled as rational numbers of seconds, numeric columns as
rationals, and the external world (the network and the library regression
fitter) as an explicit environment record.  The filesystem is a map from
paths to the stored pipeline artifact.
-/

namespace DurationPrediction

/-- One raw row of the source parquet table, with the columns the script
touches made explicit and the remaining columns kept as an opaque
association list (`extras`).  Timestamps are seconds (rational, so that
sub-second resolution and fractional minutes are representable). -/
structure RawRow where
  lpep_pickup_datetime : ℚ
  lpep_dropoff_datetime : ℚ
  PULocationID : Int
  DOLocationID : Int
  trip_distance : ℚ
  extras : List (String × String)
deriving DecidableEq, Repr

/-- A cleaned row as returned by `read_dataframe`: the `duration` column has
been added, and the two location-identifier columns have been converted to
strings (`astype(str)`). -/
structure CleanRow where
  lpep_pickup_datetime : ℚ
  lpep_dropoff_datetime : ℚ
  PULocationID : String
  DOLocationID : String
  trip_distance : ℚ
  duration : ℚ
  extras : List (String × String)
deriving DecidableEq, Repr

/-- `df.duration.dt.total_seconds() / 60`: the trip duration in fractional
minutes (not rounded). -/
def durationMinutes (r : RawRow) : ℚ :=
  (r.lpep_dropoff_datetime - r.lpep_pickup_datetime) / 60

/-- The row filter `(df.duration >= 1) & (df.duration <= 60)`. -/
def keepRow (r : RawRow) : Bool :=
  decide (1 ≤ durationMinutes r) && decide (durationMinutes r ≤ 60)

/-- Per-row effect of the cleaning: add the `duration` column and convert
`PULocationID` / `DOLocationID` to strings; all other columns unchanged. -/
def convertRow (r : RawRow) : CleanRow :=
  { lpep_pickup_datetime := r.lpep_pickup_datetime
    lpep_dropoff_datetime := r.lpep_dropoff_datetime
    PULocationID := toString r.PULocationID
    DOLocationID := toString r.DOLocationID
    trip_distance := r.trip_distance
    duration := durationMinutes r
    extras := r.extras }

/-- The whole-table cleaning performed inside `read_dataframe` after the
parquet read: duration filter, then string conversion of the survivors. -/
def cleanTable (t : List RawRow) : List CleanRow :=
  (t.filter keepRow).map convertRow

/-- The failure value carried by a raised exception. -/
structure Err where
  msg : String
deriving DecidableEq, Repr

/-- loguru log levels used by the script. -/
inductive LogLevel
  | info
  | error
deriving DecidableEq, Repr

/-- One emitted log line. -/
structure LogEntry where
  level : LogLevel
  msg : String
deriving DecidableEq, Repr

/-- The external world of the script: `fetch` is `pd.read_parquet` on a URL
(the network read), and `fitLinReg` is sklearn's `LinearRegression.fit`
returning coefficients and intercept for a design matrix and target
vector. -/
structure Env where
  fetch : String → Except Err (List RawRow)
  fitLinReg : List (List ℚ) → List ℚ → List ℚ × ℚ

/-- `read_dataframe(filename)`: logs the start line, reads the source, and on
success cleans the table and logs the surviving row count; on failure logs
the error context and the exception message and re-raises the same
exception.  Returns the emitted log lines together with the outcome. -/
def read_dataframe (env : Env) (filename : String) :
    List LogEntry × Except Err (List CleanRow) :=
  let startLog : LogEntry := ⟨LogLevel.info, "loading file: " ++ filename⟩
  match env.fetch filename with
  | Except.error e =>
      ([startLog, ⟨LogLevel.error, "error reading: " ++ filename⟩,
        ⟨LogLevel.error, e.msg⟩],
       Except.error e)
  | Except.ok t =>
      let df := cleanTable t
      ([startLog,
        ⟨LogLevel.info, filename ++ " had " ++ toString df.length ++ " rows"⟩],
       Except.ok df)

/-- One feature dictionary, as produced by
`df[categorical + numerical].to_dict(orient='records')`: the two textual
location identifiers plus the numeric trip distance. -/
structure FeatDict where
  PULocationID : String
  DOLocationID : String
  trip_distance : ℚ
deriving DecidableEq, Repr

/-- The sklearn DictVectorizer feature names contributed by one dictionary:
`field=value` for each string-valued field, bare `field` for the numeric
field. -/
def featNames (d : FeatDict) : List String :=
  ["PULocationID=" ++ d.PULocationID, "DOLocationID=" ++ d.DOLocationID,
   "trip_distance"]

/-- All feature names contributed by a list of dictionaries. -/
def allFeatNames (dicts : List FeatDict) : List String :=
  dicts.foldr (fun d acc => featNames d ++ acc) []

/-- Codepoint-lexicographic order on strings (the order Python uses to sort
feature names), stated on the underlying character lists. -/
def strLe (a b : String) : Prop := a.data ≤ b.data

instance : DecidableRel strLe := fun a b =>
  inferInstanceAs (Decidable (a.data ≤ b.data))

instance : IsTrans String strLe := ⟨fun _ _ _ h1 h2 => le_trans h1 h2⟩

instance : IsTotal String strLe := ⟨fun a b => le_total a.data b.data⟩

instance : IsAntisymm String strLe :=
  ⟨fun a b h1 h2 => by
    cases a; cases b
    exact congrArg String.mk (le_antisymm h1 h2)⟩

/-- `DictVectorizer.fit`: the vocabulary is the sorted list of distinct
feature names observed in the fitted dictionaries (sklearn sorts feature
names by default). -/
def dvFit (dicts : List FeatDict) : List String :=
  List.insertionSort strLe (allFeatNames dicts).dedup

/-- The value a dictionary contributes at one feature name: 1 for a matching
`field=value` one-hot feature, the distance for the numeric feature, and 0
everywhere else (unknown values are silently dropped). -/
def featVal (d : FeatDict) (f : String) : ℚ :=
  if f = "trip_distance" then d.trip_distance
  else if f = "PULocationID=" ++ d.PULocationID then 1
  else if f = "DOLocationID=" ++ d.DOLocationID then 1
  else 0

/-- `DictVectorizer.transform` of one dictionary against a fitted
vocabulary. -/
def dvTransform (vocab : List String) (d : FeatDict) : List ℚ :=
  vocab.map (featVal d)

/-- Projection of a cleaned row to its feature dictionary
(`df[categorical + numerical]`). -/
def rowToDict (r : CleanRow) : FeatDict :=
  { PULocationID := r.PULocationID
    DOLocationID := r.DOLocationID
    trip_distance := r.trip_distance }

/-- `LinearRegression.predict` on one vectorized row: dot product with the
coefficients plus the intercept. -/
def predictRow (coef : List ℚ) (intercept : ℚ) (x : List ℚ) : ℚ :=
  (List.zipWith (· * ·) coef x).sum + intercept

/-- The mean of squared residuals between a target vector and predictions
(the quantity under the square root in `mean_squared_error` with
`squared=False`). -/
def meanSqErr (y_true y_pred : List ℚ) : ℚ :=
  (List.zipWith (fun a b => (a - b) ^ 2) y_true y_pred).sum /
    (y_true.length : ℚ)

/-- `sklearn.metrics.mean_squared_error(y_true, y_pred, squared=...)`:
the mean squared error, square-rooted when `squared` is `false`. -/
noncomputable def mean_squared_error (y_true y_pred : List ℚ)
    (squared : Bool) : ℝ :=
  if squared then ((meanSqErr y_true y_pred : ℚ) : ℝ)
  else Real.sqrt ((meanSqErr y_true y_pred : ℚ) : ℝ)

/-- The serialized artifact: the fitted (DictVectorizer, LinearRegression)
pipeline that `pickle.dump` writes to `out_path`. -/
structure Pipeline where
  vocab : List String
  coef : List ℚ
  intercept : ℚ
deriving DecidableEq, Repr

/-- The filesystem: a map from paths to the pipeline stored there. -/
def FS : Type := String → Option Pipeline

/-- A two-digit zero-padded month, Python's `{month:02d}` format. -/
def pad2 (n : Nat) : String :=
  if n < 10 then "0" ++ toString n else toString n

/-- The fixed URL template
`.../green_tripdata_{year}-{month:02d}.parquet` instantiated at a year and
month. -/
def formatUrl (year month : Nat) : String :=
  "https://d37ci6vzurychx.cloudfront.net/trip-data/green_tripdata_" ++
    toString year ++ "-" ++ pad2 month ++ ".parquet"

/-- A calendar date argument to `train` (only year and month are ever
read by the script). -/
structure Date where
  year : Nat
  month : Nat
  day : Nat
deriving DecidableEq, Repr

/-- How `train` resolves a date argument to a source location. -/
def resolveUrl (d : Date) : String :=
  formatUrl d.year d.month

/-- Everything `train` computes on the success path, before the final
square root: the fitted vocabulary, the transformed validation matrix, the
target vectors, predictions, the mean squared error, and the pipeline
artifact it writes. -/
structure TrainOk where
  vocab : List String
  X_val : List (List ℚ)
  y_val : List ℚ
  y_pred : List ℚ
  msqe : ℚ
  artifact : Pipeline
deriving DecidableEq, Repr

/-- The body of `train(train_date, val_date, out_path)` up to (but not
including) the square root in the RMSE: resolve the two URLs, load both
tables (propagating any failure with the filesystem untouched), build the
feature dictionaries and target vectors, fit the vectorizer on the training
dictionaries only, fit the regression, transform the validation
dictionaries with the already-fitted vocabulary, predict, compute the mean
squared residual, and write the pipeline to `out_path`. -/
def trainCore (env : Env) (train_date val_date : Date) (out_path : String)
    (fs : FS) : Except Err TrainOk × FS :=
  let train_url := resolveUrl train_date
  let val_url := resolveUrl val_date
  match (read_dataframe env train_url).2 with
  | Except.error e => (Except.error e, fs)
  | Except.ok df_train =>
    match (read_dataframe env val_url).2 with
    | Except.error e => (Except.error e, fs)
    | Except.ok df_val =>
      let train_dicts := df_train.map rowToDict
      let val_dicts := df_val.map rowToDict
      let y_train := df_train.map CleanRow.duration
      let y_val := df_val.map CleanRow.duration
      let vocab := dvFit train_dicts
      let X_train := train_dicts.map (dvTransform vocab)
      let X_val := val_dicts.map (dvTransform vocab)
      let fitted := env.fitLinReg X_train y_train
      let y_pred := X_val.map (predictRow fitted.1 fitted.2)
      let msqe := meanSqErr y_val y_pred
      let pipeline : Pipeline := ⟨vocab, fitted.1, fitted.2⟩
      (Except.ok ⟨vocab, X_val, y_val, y_pred, msqe, pipeline⟩,
       fun p => if p = out_path then some pipeline else fs p)

/-- `train(train_date, val_date, out_path)`: on success returns the RMSE
(`mean_squared_error(..., squared=False)`) and the filesystem with the
pipeline written at `out_path`; on failure propagates the exception with
the filesystem unchanged. -/
noncomputable def train (env : Env) (train_date val_date : Date)
    (out_path : String) (fs : FS) : Except Err ℝ × FS :=
  match trainCore env train_date val_date out_path fs with
  | (Except.error e, fs2) => (Except.error e, fs2)
  | (Except.ok r, fs2) =>
      (Except.ok (mean_squared_error r.y_val r.y_pred false), fs2)

/-- The success value of `trainCore` as a function of the two fetched raw
tables: the sequence of computations on the success path of `train`,
written out once so that theorems can name the result. -/
def trainOkOf (env : Env) (t tv : List RawRow) : TrainOk :=
  let train_dicts := (cleanTable t).map rowToDict
  let val_dicts := (cleanTable tv).map rowToDict
  let y_train := (cleanTable t).map CleanRow.duration
  let y_val := (cleanTable tv).map CleanRow.duration
  let vocab := dvFit train_dicts
  let X_train := train_dicts.map (dvTransform vocab)
  let X_val := val_dicts.map (dvTransform vocab)
  let fitted := env.fitLinReg X_train y_train
  let y_pred := X_val.map (predictRow fitted.1 fitted.2)
  ⟨vocab, X_val, y_val, y_pred, meanSqErr y_val y_pred,
   ⟨vocab, fitted.1, fitted.2⟩⟩

/-! ### Concrete fixtures

Small concrete rows, environments and filesystems used to instantiate the
theorems below at executable inputs. -/

/-- A trip of 10 minutes (survives the filter). -/
def rowA : RawRow :=
  { lpep_pickup_datetime := 0
    lpep_dropoff_datetime := 600
    PULocationID := 74
    DOLocationID := 75
    trip_distance := 2
    extras := [("tip_amount", "1.5")] }

/-- A trip of 20 seconds, i.e. 1/3 of a minute (dropped by the filter). -/
def rowB : RawRow :=
  { lpep_pickup_datetime := 0
    lpep_dropoff_datetime := 20
    PULocationID := 74
    DOLocationID := 75
    trip_distance := 0
    extras := [] }

/-- A validation trip of 20 minutes with an unseen dropoff location. -/
def rowV : RawRow :=
  { lpep_pickup_datetime := 0
    lpep_dropoff_datetime := 1200
    PULocationID := 74
    DOLocationID := 42
    trip_distance := 3
    extras := [] }

/-- A concrete training date. -/
def dateT : Date := ⟨2023, 1, 15⟩

/-- A concrete validation date. -/
def dateV : Date := ⟨2023, 2, 15⟩

/-- The resolved training URL for `dateT`. -/
def urlT : String := resolveUrl dateT

/-- The resolved validation URL for `dateV`. -/
def urlV : String := resolveUrl dateV

/-- A concrete network failure. -/
def errConn : Err := ⟨"connection failed"⟩

/-- An environment where both monthly files are reachable. -/
def envA : Env :=
  { fetch := fun s =>
      if s = urlT then Except.ok [rowA, rowB]
      else if s = urlV then Except.ok [rowV]
      else Except.error ⟨"http 404"⟩
    fitLinReg := fun _ y =>
      ([], if y.length = 0 then 0 else y.sum / (y.length : ℚ)) }

/-- An environment where every fetch fails. -/
def envE : Env :=
  { fetch := fun _ => Except.error errConn
    fitLinReg := fun _ _ => ([], 0) }

/-- An environment where only the training file is reachable. -/
def envB : Env :=
  { fetch := fun s =>
      if s = urlT then Except.ok [rowA] else Except.error errConn
    fitLinReg := fun _ _ => ([], 0) }

/-- The empty filesystem. -/
def fs0 : FS := fun _ => none

/-! ### Theorems -/

/-- C1: a row appears in the cleaned output of `read_dataframe` if and only
if its derived duration — `(dropoff − pickup)` in seconds divided by 60,
kept fractional — satisfies `1 ≤ duration ≤ 60` inclusive; this filter is
the sole row-dropping step (the output length is exactly the number of
input rows passing the filter). -/
theorem claim1_loader_filter (env : Env) (f : String) (t : List RawRow)
    (c : CleanRow) (h : env.fetch f = Except.ok t) :
    (read_dataframe env f).2 = Except.ok (cleanTable t)
    ∧ (c ∈ cleanTable t ↔
        ∃ r, r ∈ t ∧ (1 ≤ durationMinutes r ∧ durationMinutes r ≤ 60)
          ∧ c = convertRow r)
    ∧ (cleanTable t).length = t.countP keepRow := by
  refine ⟨by simp [read_dataframe, h], ?_,
    by simp [cleanTable, List.countP_eq_length_filter]⟩
  simp only [cleanTable, List.mem_map, List.mem_filter, keepRow,
    Bool.and_eq_true, decide_eq_true_eq]
  constructor
  · rintro ⟨r, ⟨hr, hd⟩, hc⟩
    exact ⟨r, hr, hd, hc.symm⟩
  · rintro ⟨r, hr, hd, hc⟩
    exact ⟨r, ⟨hr, hd⟩, hc.symm⟩

/-- C1 witness: the two-row table `[rowA, rowB]` fetched by `envA` at the
training URL; `rowA` (10 minutes) survives, and the filter keeps exactly
one row. -/
theorem claim1_loader_filter_witness :
    envA.fetch urlT = Except.ok [rowA, rowB]
    ∧ ((read_dataframe envA urlT).2 = Except.ok (cleanTable [rowA, rowB])
      ∧ (convertRow rowA ∈ cleanTable [rowA, rowB] ↔
          ∃ r, r ∈ [rowA, rowB]
            ∧ (1 ≤ durationMinutes r ∧ durationMinutes r ≤ 60)
            ∧ convertRow rowA = convertRow r)
      ∧ (cleanTable [rowA, rowB]).length = List.countP keepRow [rowA, rowB]) :=
  ⟨rfl, claim1_loader_filter envA urlT [rowA, rowB] (convertRow rowA) rfl⟩

/-- C5: when the source fetch fails, `read_dataframe` emits the start log
line, an error log naming the file, and an error log with the exception
message, then re-raises the very same exception — no retry, no partial
table. -/
theorem claim5_loader_logs_reraises (env : Env) (f : String) (e : Err)
    (h : env.fetch f = Except.error e) :
    read_dataframe env f =
      ([⟨LogLevel.info, "loading file: " ++ f⟩,
        ⟨LogLevel.error, "error reading: " ++ f⟩,
        ⟨LogLevel.error, e.msg⟩],
       Except.error e) := by
  simp [read_dataframe, h]

/-- C5 witness: the always-failing environment at a concrete path. -/
theorem claim5_loader_logs_reraises_witness :
    read_dataframe envE "somefile.parquet" =
      ([⟨LogLevel.info, "loading file: " ++ "somefile.parquet"⟩,
        ⟨LogLevel.error, "error reading: " ++ "somefile.parquet"⟩,
        ⟨LogLevel.error, errConn.msg⟩],
       Except.error errConn) :=
  claim5_loader_logs_reraises envE "somefile.parquet" errConn rfl

/-- C6: every row of a cleaned table carries the string conversion of the
source row's two location identifiers, and conversely the conversion is
applied to exactly the rows surviving the duration filter. -/
theorem claim6_id_columns_string (t : List RawRow) :
    (∀ c ∈ cleanTable t, ∃ r, r ∈ t ∧ keepRow r = true
      ∧ c.PULocationID = toString r.PULocationID
      ∧ c.DOLocationID = toString r.DOLocationID)
    ∧ (∀ r ∈ t, keepRow r = true → convertRow r ∈ cleanTable t
      ∧ (convertRow r).PULocationID = toString r.PULocationID
      ∧ (convertRow r).DOLocationID = toString r.DOLocationID) := by
  constructor
  · intro c hc
    simp only [cleanTable, List.mem_map, List.mem_filter] at hc
    obtain ⟨r, ⟨hr, hk⟩, hc⟩ := hc
    exact ⟨r, hr, hk, by rw [← hc]; rfl, by rw [← hc]; rfl⟩
  · intro r hr hk
    refine ⟨?_, rfl, rfl⟩
    simp only [cleanTable, List.mem_map, List.mem_filter]
    exact ⟨r, ⟨hr, hk⟩, rfl⟩

/-- C6 witness: instantiated on the two-row table; `rowA` survives and its
identifiers are the strings of the source integers. -/
theorem claim6_id_columns_string_witness :
    rowA ∈ [rowA, rowB] ∧ keepRow rowA = true
    ∧ (convertRow rowA ∈ cleanTable [rowA, rowB]
      ∧ (convertRow rowA).PULocationID = toString rowA.PULocationID
      ∧ (convertRow rowA).DOLocationID = toString rowA.DOLocationID) :=
  ⟨by simp, by norm_num [keepRow, durationMinutes, rowA],
   (claim6_id_columns_string [rowA, rowB]).2 rowA (by simp)
     (by norm_num [keepRow, durationMinutes, rowA])⟩

/-- C8: `read_dataframe` is deterministic with respect to its source: its
entire output (logs and cleaned table, same rows in the same order) is a
function of what the fetch returns, so two calls over an unchanged source
agree. -/
theorem claim8_loader_deterministic (env1 env2 : Env) (f : String)
    (h : env1.fetch f = env2.fetch f) :
    read_dataframe env1 f = read_dataframe env2 f := by
  simp only [read_dataframe, h]

/-- C8 witness: two distinct environments agreeing on the training URL. -/
theorem claim8_loader_deterministic_witness :
    read_dataframe { envA with fitLinReg := envE.fitLinReg } urlT =
      read_dataframe envA urlT :=
  claim8_loader_deterministic { envA with fitLinReg := envE.fitLinReg }
    envA urlT rfl

/-- C9: the cleaned table is an order-preserving image of a sublist of the
source rows (survivors keep their relative order), and the per-row
conversion leaves every column other than the added `duration` and the two
stringified identifiers unchanged. -/
theorem claim9_frame_preservation (t : List RawRow) :
    ∃ sub : List RawRow, sub.Sublist t
      ∧ cleanTable t = sub.map convertRow
      ∧ (∀ r ∈ sub, keepRow r = true)
      ∧ (∀ r : RawRow,
          (convertRow r).lpep_pickup_datetime = r.lpep_pickup_datetime
          ∧ (convertRow r).lpep_dropoff_datetime = r.lpep_dropoff_datetime
          ∧ (convertRow r).trip_distance = r.trip_distance
          ∧ (convertRow r).extras = r.extras) :=
  ⟨t.filter keepRow, List.filter_sublist t, rfl,
   fun _ hr => (List.mem_filter.1 hr).2,
   fun _ => ⟨rfl, rfl, rfl, rfl⟩⟩

/-- C9 witness: the frame property instantiated on the concrete two-row
table. -/
theorem claim9_frame_preservation_witness :
    ∃ sub : List RawRow, sub.Sublist [rowA, rowB]
      ∧ cleanTable [rowA, rowB] = sub.map convertRow
      ∧ (∀ r ∈ sub, keepRow r = true)
      ∧ (∀ r : RawRow,
          (convertRow r).lpep_pickup_datetime = r.lpep_pickup_datetime
          ∧ (convertRow r).lpep_dropoff_datetime = r.lpep_dropoff_datetime
          ∧ (convertRow r).trip_distance = r.trip_distance
          ∧ (convertRow r).extras = r.extras) :=
  claim9_frame_preservation [rowA, rowB]

/-- Helper: when both fetches succeed, `trainCore` returns
`trainOkOf env t tv` and writes its artifact at `out`. -/
theorem trainCore_ok (env : Env) (td vd : Date) (out : String) (fs : FS)
    (t tv : List RawRow)
    (h1 : env.fetch (resolveUrl td) = Except.ok t)
    (h2 : env.fetch (resolveUrl vd) = Except.ok tv) :
    trainCore env td vd out fs =
      (Except.ok (trainOkOf env t tv),
       fun p => if p = out then some (trainOkOf env t tv).artifact
         else fs p) := by
  have e1 : (read_dataframe env (resolveUrl td)).2 =
      Except.ok (cleanTable t) := by simp [read_dataframe, h1]
  have e2 : (read_dataframe env (resolveUrl vd)).2 =
      Except.ok (cleanTable tv) := by simp [read_dataframe, h2]
  simp only [trainCore, e1, e2, trainOkOf]

/-- Helper: every error exit of `trainCore` leaves the filesystem
unchanged. -/
theorem trainCore_error_fs (env : Env) (td vd : Date) (out : String)
    (fs : FS) (e : Err) (fs2 : FS)
    (h : trainCore env td vd out fs = (Except.error e, fs2)) : fs2 = fs := by
  simp only [trainCore] at h
  cases h1 : (read_dataframe env (resolveUrl td)).2 with
  | error e1 =>
      rw [h1] at h
      simp only [Prod.mk.injEq] at h
      exact h.2.symm
  | ok dft =>
      rw [h1] at h
      cases h2 : (read_dataframe env (resolveUrl vd)).2 with
      | error e2 =>
          rw [h2] at h
          simp only [Prod.mk.injEq] at h
          exact h.2.symm
      | ok dfv =>
          rw [h2] at h
          simp only [Prod.mk.injEq, reduceCtorEq, false_and] at h

/-- Helper: a sum of squared differences is nonnegative. -/
theorem sumSq_nonneg :
    ∀ y yp : List ℚ,
      0 ≤ (List.zipWith (fun a b => (a - b) ^ 2) y yp).sum
  | [], _ => le_of_eq (by simp)
  | _ :: _, [] => le_of_eq (by simp)
  | a :: y, b :: yp => by
      rw [List.zipWith_cons_cons, List.sum_cons]
      exact add_nonneg (sq_nonneg _) (sumSq_nonneg y yp)

/-- Helper: the mean of squared residuals is nonnegative. -/
theorem meanSqErr_nonneg (y yp : List ℚ) : 0 ≤ meanSqErr y yp :=
  div_nonneg (sumSq_nonneg y yp) (Nat.cast_nonneg _)

/-- C2: the vectorizer is fitted on the training feature dictionaries only
(the fitted vocabulary is a function of them alone and of the distinct
(field,value) pairs they contain), the validation dictionaries are
transformed with that already-fitted vocabulary, and validation-only
feature values contribute zero to every dimension (two dictionaries whose
unseen categorical values differ transform identically). -/
theorem claim2_vectorizer_train_only :
    (∀ (env : Env) (td vd : Date) (out : String) (fs : FS)
        (t tv : List RawRow),
        env.fetch (resolveUrl td) = Except.ok t →
        env.fetch (resolveUrl vd) = Except.ok tv →
        ∃ fs2, trainCore env td vd out fs =
            (Except.ok (trainOkOf env t tv), fs2)
          ∧ (trainOkOf env t tv).vocab = dvFit ((cleanTable t).map rowToDict)
          ∧ (trainOkOf env t tv).X_val =
              ((cleanTable tv).map rowToDict).map
                (dvTransform (dvFit ((cleanTable t).map rowToDict))))
    ∧ (∀ l1 l2 : List FeatDict,
        (allFeatNames l1).toFinset = (allFeatNames l2).toFinset →
        dvFit l1 = dvFit l2)
    ∧ (∀ (vocab : List String) (d d2 : FeatDict),
        ("PULocationID=" ++ d.PULocationID) ∉ vocab →
        ("PULocationID=" ++ d2.PULocationID) ∉ vocab →
        ("DOLocationID=" ++ d.DOLocationID) ∉ vocab →
        ("DOLocationID=" ++ d2.DOLocationID) ∉ vocab →
        d.trip_distance = d2.trip_distance →
        dvTransform vocab d = dvTransform vocab d2) := by
  refine ⟨?_, ?_, ?_⟩
  · intro env td vd out fs t tv h1 h2
    exact ⟨_, trainCore_ok env td vd out fs t tv h1 h2, rfl, rfl⟩
  · intro l1 l2 h
    have hm : ∀ a, a ∈ (allFeatNames l1).dedup ↔ a ∈ (allFeatNames l2).dedup := by
      intro a
      rw [List.mem_dedup, List.mem_dedup, ← List.mem_toFinset, h,
        List.mem_toFinset]
    have hp : List.Perm (allFeatNames l1).dedup (allFeatNames l2).dedup :=
      (List.perm_ext_iff_of_nodup (List.nodup_dedup _)
        (List.nodup_dedup _)).2 hm
    exact List.eq_of_perm_of_sorted
      ((List.perm_insertionSort strLe _).trans
        (hp.trans (List.perm_insertionSort strLe _).symm))
      (List.sorted_insertionSort strLe _)
      (List.sorted_insertionSort strLe _)
  · intro vocab d d2 hp1 hp2 hd1 hd2 hq
    apply List.map_congr_left
    intro f hf
    have n1 : ¬f = "PULocationID=" ++ d.PULocationID :=
      fun hh => hp1 (hh ▸ hf)
    have n2 : ¬f = "PULocationID=" ++ d2.PULocationID :=
      fun hh => hp2 (hh ▸ hf)
    have n3 : ¬f = "DOLocationID=" ++ d.DOLocationID :=
      fun hh => hd1 (hh ▸ hf)
    have n4 : ¬f = "DOLocationID=" ++ d2.DOLocationID :=
      fun hh => hd2 (hh ▸ hf)
    by_cases ht : f = "trip_distance"
    · simp [featVal, ht, hq]
    · simp [featVal, ht, n1, n2, n3, n4]

/-- C2 witness: a concrete run whose vocabulary is fitted from the training
table only; two training-dictionary lists with the same (field,value)
pairs give the same vocabulary; two dictionaries with different unseen
categorical values transform to the same vector. -/
theorem claim2_vectorizer_train_only_witness :
    (∃ fs2, trainCore envA dateT dateV "model.bin" fs0 =
        (Except.ok (trainOkOf envA [rowA, rowB] [rowV]), fs2)
      ∧ (trainOkOf envA [rowA, rowB] [rowV]).vocab =
          dvFit ((cleanTable [rowA, rowB]).map rowToDict)
      ∧ (trainOkOf envA [rowA, rowB] [rowV]).X_val =
          ((cleanTable [rowV]).map rowToDict).map
            (dvTransform (dvFit ((cleanTable [rowA, rowB]).map rowToDict))))
    ∧ dvFit [⟨"7", "9", 1⟩, ⟨"7", "9", 2⟩] = dvFit [⟨"7", "9", 3⟩]
    ∧ dvTransform ["trip_distance"] ⟨"a", "b", 5⟩ =
        dvTransform ["trip_distance"] ⟨"c", "d", 5⟩ :=
  ⟨claim2_vectorizer_train_only.1 envA dateT dateV "model.bin" fs0
      [rowA, rowB] [rowV] rfl rfl,
   claim2_vectorizer_train_only.2.1 [⟨"7", "9", 1⟩, ⟨"7", "9", 2⟩]
      [⟨"7", "9", 3⟩] (by decide),
   claim2_vectorizer_train_only.2.2 ["trip_distance"] ⟨"a", "b", 5⟩
      ⟨"c", "d", 5⟩ (by decide) (by decide) (by decide) (by decide) rfl⟩

/-- C3: on the success path `train` returns, as the `ok` value, the
root-mean-squared-error between the predictions on the validation feature
dictionaries and the actual validation durations — the nonnegative square
root of the mean squared residual, not `none`/`error` and not the
un-rooted mean squared error. -/
theorem claim3_returns_rmse (env : Env) (td vd : Date) (out : String)
    (fs : FS) (t tv : List RawRow)
    (h1 : env.fetch (resolveUrl td) = Except.ok t)
    (h2 : env.fetch (resolveUrl vd) = Except.ok tv) :
    ∃ fs2, trainCore env td vd out fs =
        (Except.ok (trainOkOf env t tv), fs2)
      ∧ train env td vd out fs =
          (Except.ok (mean_squared_error (trainOkOf env t tv).y_val
            (trainOkOf env t tv).y_pred false), fs2)
      ∧ (trainOkOf env t tv).y_val = (cleanTable tv).map CleanRow.duration
      ∧ mean_squared_error (trainOkOf env t tv).y_val
          (trainOkOf env t tv).y_pred false =
          Real.sqrt ((meanSqErr (trainOkOf env t tv).y_val
            (trainOkOf env t tv).y_pred : ℚ) : ℝ)
      ∧ 0 ≤ mean_squared_error (trainOkOf env t tv).y_val
          (trainOkOf env t tv).y_pred false
      ∧ (mean_squared_error (trainOkOf env t tv).y_val
          (trainOkOf env t tv).y_pred false) ^ 2 =
          ((meanSqErr (trainOkOf env t tv).y_val
            (trainOkOf env t tv).y_pred : ℚ) : ℝ) := by
  have hc := trainCore_ok env td vd out fs t tv h1 h2
  have hs : mean_squared_error (trainOkOf env t tv).y_val
      (trainOkOf env t tv).y_pred false =
      Real.sqrt ((meanSqErr (trainOkOf env t tv).y_val
        (trainOkOf env t tv).y_pred : ℚ) : ℝ) := by
    simp [mean_squared_error]
  refine ⟨_, hc, ?_, rfl, hs, ?_, ?_⟩
  · unfold train
    rw [hc]
  · rw [hs]
    exact Real.sqrt_nonneg _
  · rw [hs]
    exact Real.sq_sqrt (by exact_mod_cast meanSqErr_nonneg _ _)

/-- C3 witness: the concrete successful run on `envA`. -/
theorem claim3_returns_rmse_witness :
    ∃ fs2, trainCore envA dateT dateV "model.bin" fs0 =
        (Except.ok (trainOkOf envA [rowA, rowB] [rowV]), fs2)
      ∧ train envA dateT dateV "model.bin" fs0 =
          (Except.ok (mean_squared_error (trainOkOf envA [rowA, rowB] [rowV]).y_val
            (trainOkOf envA [rowA, rowB] [rowV]).y_pred false), fs2)
      ∧ (trainOkOf envA [rowA, rowB] [rowV]).y_val =
          (cleanTable [rowV]).map CleanRow.duration
      ∧ mean_squared_error (trainOkOf envA [rowA, rowB] [rowV]).y_val
          (trainOkOf envA [rowA, rowB] [rowV]).y_pred false =
          Real.sqrt ((meanSqErr (trainOkOf envA [rowA, rowB] [rowV]).y_val
            (trainOkOf envA [rowA, rowB] [rowV]).y_pred : ℚ) : ℝ)
      ∧ 0 ≤ mean_squared_error (trainOkOf envA [rowA, rowB] [rowV]).y_val
          (trainOkOf envA [rowA, rowB] [rowV]).y_pred false
      ∧ (mean_squared_error (trainOkOf envA [rowA, rowB] [rowV]).y_val
          (trainOkOf envA [rowA, rowB] [rowV]).y_pred false) ^ 2 =
          ((meanSqErr (trainOkOf envA [rowA, rowB] [rowV]).y_val
            (trainOkOf envA [rowA, rowB] [rowV]).y_pred : ℚ) : ℝ) :=
  claim3_returns_rmse envA dateT dateV "model.bin" fs0 [rowA, rowB] [rowV]
    rfl rfl

/-- C4: if either Loader invocation inside `train` fails, `train`
propagates the same failure and the filesystem is unchanged — in
particular, if `out_path` did not exist before the call it does not exist
after; and generally any error outcome of `train` leaves the filesystem
exactly as it was. -/
theorem claim4_failure_no_artifact (env : Env) (td vd : Date)
    (out : String) (fs : FS) :
    (∀ e, env.fetch (resolveUrl td) = Except.error e →
      train env td vd out fs = (Except.error e, fs))
    ∧ (∀ t e, env.fetch (resolveUrl td) = Except.ok t →
        env.fetch (resolveUrl vd) = Except.error e →
        train env td vd out fs = (Except.error e, fs))
    ∧ (∀ e fs2, train env td vd out fs = (Except.error e, fs2) →
        fs2 = fs ∧ (fs out = none → fs2 out = none)) := by
  refine ⟨?_, ?_, ?_⟩
  · intro e he
    have h1 : (read_dataframe env (resolveUrl td)).2 = Except.error e := by
      simp [read_dataframe, he]
    have hc : trainCore env td vd out fs = (Except.error e, fs) := by
      simp only [trainCore, h1]
    unfold train
    rw [hc]
  · intro t e ht he
    have h1 : (read_dataframe env (resolveUrl td)).2 =
        Except.ok (cleanTable t) := by simp [read_dataframe, ht]
    have h2 : (read_dataframe env (resolveUrl vd)).2 = Except.error e := by
      simp [read_dataframe, he]
    have hc : trainCore env td vd out fs = (Except.error e, fs) := by
      simp only [trainCore, h1, h2]
    unfold train
    rw [hc]
  · intro e fs2 h
    unfold train at h
    rcases hc : trainCore env td vd out fs with ⟨res, fs3⟩
    rw [hc] at h
    cases res with
    | error e2 =>
        simp only [Prod.mk.injEq] at h
        have := trainCore_error_fs env td vd out fs e2 fs3 hc
        have hfs : fs2 = fs := h.2 ▸ this
        exact ⟨hfs, fun hn => hfs ▸ hn⟩
    | ok r =>
        simp only [Prod.mk.injEq, reduceCtorEq, false_and] at h

/-- C4 witness: the always-failing environment propagates the connection
error with the empty filesystem untouched; so does an environment whose
validation fetch fails; and the error outcome implies the filesystem
equality. -/
theorem claim4_failure_no_artifact_witness :
    train envE dateT dateV "model.bin" fs0 = (Except.error errConn, fs0)
    ∧ train envB dateT dateV "model.bin" fs0 = (Except.error errConn, fs0)
    ∧ (fs0 = fs0 ∧ (fs0 "model.bin" = none → fs0 "model.bin" = none)) :=
  have hE : train envE dateT dateV "model.bin" fs0 =
      (Except.error errConn, fs0) :=
    (claim4_failure_no_artifact envE dateT dateV "model.bin" fs0).1
      errConn rfl
  ⟨hE,
   (claim4_failure_no_artifact envB dateT dateV "model.bin" fs0).2.1
      [rowA] errConn (by simp [envB, urlT])
      (by simp only [envB]; rw [if_neg (by decide)]),
   (claim4_failure_no_artifact envE dateT dateV "model.bin" fs0).2.2
      errConn fs0 hE⟩

/-- C7: both periods are resolved by instantiating the fixed URL template
ending in `green_tripdata_{year}-{month:02d}.parquet` with the period's
year and zero-padded two-digit month; no other part of the dates affects
the resolved locations. -/
theorem claim7_url_template :
    (∀ d : Date, resolveUrl d =
      "https://d37ci6vzurychx.cloudfront.net/trip-data/green_tripdata_" ++
        toString d.year ++ "-" ++ pad2 d.month ++ ".parquet")
    ∧ (∀ m : Nat, m ≤ 9 → pad2 m = "0" ++ toString m)
    ∧ (∀ m : Nat, 10 ≤ m → pad2 m = toString m)
    ∧ (∀ d d2 : Date, d.year = d2.year → d.month = d2.month →
        resolveUrl d = resolveUrl d2) := by
  refine ⟨fun d => rfl, fun m hm => ?_, fun m hm => ?_, fun d d2 hy hm => ?_⟩
  · rw [pad2, if_pos (by omega)]
  · rw [pad2, if_neg (by omega)]
  · rw [resolveUrl, resolveUrl, formatUrl, formatUrl, hy, hm]

/-- C7 witness: the template at concrete dates — a single-digit month is
zero-padded, a two-digit month is not, and the day of the month does not
change the resolved URL. -/
theorem claim7_url_template_witness :
    resolveUrl ⟨2023, 1, 15⟩ =
      "https://d37ci6vzurychx.cloudfront.net/trip-data/green_tripdata_" ++
        toString 2023 ++ "-" ++ pad2 1 ++ ".parquet"
    ∧ pad2 1 = "0" ++ toString 1
    ∧ pad2 12 = toString 12
    ∧ resolveUrl ⟨2023, 1, 15⟩ = resolveUrl ⟨2023, 1, 28⟩ :=
  ⟨claim7_url_template.1 ⟨2023, 1, 15⟩,
   claim7_url_template.2.1 1 (by omega),
   claim7_url_template.2.2.1 12 (by omega),
   claim7_url_template.2.2.2 ⟨2023, 1, 15⟩ ⟨2023, 1, 28⟩ rfl rfl⟩

/-- C10: `train` reads its two date arguments only through their year and
month: dates agreeing on year and month produce identical behaviour — the
same outcome (returned error value or propagated failure) and the same
final filesystem. -/
theorem claim10_day_irrelevant (env : Env) (td td2 vd vd2 : Date)
    (out : String) (fs : FS)
    (hy : td.year = td2.year) (hm : td.month = td2.month)
    (hy2 : vd.year = vd2.year) (hm2 : vd.month = vd2.month) :
    train env td vd out fs = train env td2 vd2 out fs := by
  have h1 : resolveUrl td = resolveUrl td2 := by
    rw [resolveUrl, resolveUrl, hy, hm]
  have h2 : resolveUrl vd = resolveUrl vd2 := by
    rw [resolveUrl, resolveUrl, hy2, hm2]
  unfold train trainCore
  rw [h1, h2]

/-- C10 witness: the training run is unchanged when both dates move to
different days of the same months. -/
theorem claim10_day_irrelevant_witness :
    train envA ⟨2023, 1, 1⟩ ⟨2023, 2, 3⟩ "model.bin" fs0 =
      train envA ⟨2023, 1, 27⟩ ⟨2023, 2, 28⟩ "model.bin" fs0 :=
  claim10_day_irrelevant envA ⟨2023, 1, 1⟩ ⟨2023, 1, 27⟩ ⟨2023, 2, 3⟩
    ⟨2023, 2, 28⟩ "model.bin" fs0 rfl rfl rfl rfl

end DurationPrediction
